import Mathlib

set_option maxRecDepth 200000

/-!
Verification of the course-material build pipeline (module validation,
combination, multi-pass compilation, PDF merging).

Strings are modelled as `List Char` (Python `str`).  Filesystem state and
subprocess outcomes are modelled as explicit oracle parameters, so every
embedded operation is a pure, executable function of its inputs.
-/

namespace GWF

/-- Character-list representation of a string literal. -/
def str (s : String) : List Char := s.data

/-- Python `str.find(pat)`: index of the first occurrence of `pat`, `none`
standing for Python's `-1`. -/
def find (pat : List Char) : List Char → Option Nat
  | [] => if pat.isPrefixOf ([] : List Char) then some 0 else none
  | c :: cs => if pat.isPrefixOf (c :: cs) then some 0 else (find pat cs).map (· + 1)

/-- Python `pat in s` (substring containment). -/
def containsSub (pat s : List Char) : Bool := (find pat s).isSome

/-- The whitespace characters stripped by Python `str.strip()` (ASCII part). -/
def isPySpace (c : Char) : Bool :=
  c == ' ' || c == '\t' || c == '\n' || c == '\r' || c == '\x0b' || c == '\x0c'

/-- Python `str.strip()`: remove leading and trailing whitespace. -/
def pyStrip (cs : List Char) : List Char :=
  ((cs.dropWhile isPySpace).reverse.dropWhile isPySpace).reverse

/-- Index of the last occurrence of a character (Python `str.rfind`),
`none` for Python's `-1`. -/
def rfindIdx (c : Char) : List Char → Option Nat
  | [] => none
  | x :: xs =>
    match rfindIdx c xs with
    | some i => some (i + 1)
    | none => if x == c then some 0 else none

/-- `pathlib.PurePath.stem` on a final path component: the name without its
suffix; pathlib takes the suffix to start at the last "." `i` with
`0 < i < len(name) - 1`. -/
def pathStem (name : List Char) : List Char :=
  match rfindIdx '.' name with
  | some i => if 0 < i ∧ i < name.length - 1 then name.take i else name
  | none => name

/-- `pathlib.PurePath.suffix` on a final path component. -/
def pathSuffix (name : List Char) : List Char :=
  match rfindIdx '.' name with
  | some i => if 0 < i ∧ i < name.length - 1 then name.drop i else []
  | none => []

/-- Python `str.lower()` (ASCII; only compared against ".pdf" here). -/
def pyToLower (cs : List Char) : List Char := cs.map Char.toLower

/-- `pathlib` path join `a / b`. -/
def joinPath (a b : List Char) : List Char := a ++ ['/'] ++ b

/-! ## LaTeX compiler driver (`scripts/utils/latex_compiler.py`) -/

/-- Outcome of the `subprocess.run` invocation inside `compile_tex_file`:
normal completion with an exit code and captured streams, a
`subprocess.TimeoutExpired`, or any other raised exception. -/
inductive RunOutcome where
  | completed (returncode : Int) (stdout stderr : List Char)
  | timedOut
  | raised (message : List Char)
deriving DecidableEq

/-- Environment oracle for one `compile_tex_file` call: existence of the
source file, the `check_latex_installation()` probe, the driver's
`temp_dir`, the subprocess outcome, and the set of paths existing on disk
after the subprocess returns. -/
structure CompileEnv where
  texFileExists : Bool
  latexInstalled : Bool
  tempDir : List Char
  outcome : RunOutcome
  pdfExistsAfter : List Char → Bool

/-- The result dictionary of `compile_tex_file` (keys absent in a given
branch of the source are `none`). -/
structure CompileResult where
  success : Bool
  error : Option (List Char)
  output_path : Option (List Char)
  log : Option (List Char)
deriving DecidableEq

/-- `Path(output_directory) / (tex_path.stem + ".pdf")`: the artifact the
compiler is expected to produce (`output_dir or self.temp_dir`). -/
def expectedPdfPath (env : CompileEnv) (texName : List Char)
    (outputDir : Option (List Char)) : List Char :=
  joinPath (outputDir.getD env.tempDir) (pathStem texName ++ str ".pdf")

/-- `LaTeXCompiler.compile_tex_file` (latex_compiler.py:59-136).
`texName` is the final component of the `tex_file` path.  The
`os.makedirs` side effect has no bearing on the returned value. -/
def compile_tex_file (env : CompileEnv) (texName : List Char)
    (outputDir : Option (List Char)) : CompileResult :=
  if env.texFileExists = false then
    { success := false, error := some (str "LaTeX file not found: " ++ texName),
      output_path := none, log := none }
  else if env.latexInstalled = false then
    { success := false, error := some (str "LaTeX compiler not found"),
      output_path := none, log := none }
  else
    match env.outcome with
    | .completed rc out errS =>
      if rc = 0 ∧ env.pdfExistsAfter (expectedPdfPath env texName outputDir) = true then
        { success := true, error := none,
          output_path := some (expectedPdfPath env texName outputDir), log := some out }
      else
        { success := false, error := some (str "Compilation failed: " ++ errS),
          output_path := none, log := some out }
    | .timedOut =>
      { success := false, error := some (str "Compilation timed out after 5 minutes"),
        output_path := none, log := none }
    | .raised m =>
      { success := false, error := some (str "Compilation error: " ++ m),
        output_path := none, log := none }

/-- The loop body of `compile_multiple_passes` (latex_compiler.py:151-158),
started at pass index `i` with `fuel` remaining iterations; `results j` is
the value `compile_tex_file` returns on the `j`-th invocation (the disk
state evolves between passes, hence the oracle indexed by pass number).
Returns the final `result` variable together with the number of
`compile_tex_file` invocations performed. -/
def runPassesFrom (results : Nat → CompileResult) :
    Nat → Nat → Option CompileResult × Nat
  | _, 0 => (none, 0)
  | i, n + 1 =>
    if (results i).success = false then (some (results i), 1)
    else
      match n with
      | 0 => (some (results i), 1)
      | m + 1 =>
        ((runPassesFrom results (i + 1) (m + 1)).1,
         (runPassesFrom results (i + 1) (m + 1)).2 + 1)

/-- `LaTeXCompiler.compile_multiple_passes` (latex_compiler.py:138-158):
the returned result (`none` models Python's `None` when `passes = 0`). -/
def compile_multiple_passes (results : Nat → CompileResult) (passes : Nat) :
    Option CompileResult :=
  (runPassesFrom results 0 passes).1

/-- Number of `compile_tex_file` invocations performed by
`compile_multiple_passes`. -/
def compile_multiple_passes_calls (results : Nat → CompileResult) (passes : Nat) : Nat :=
  (runPassesFrom results 0 passes).2

/-- Pass oracle realising spec property 5: the compiler fails on pass 2
(index 1) and would succeed on any other pass. -/
def c2WitnessResults : Nat → CompileResult := fun n =>
  if n = 1 then
    { success := false, error := some (str "Compilation failed: "),
      output_path := none, log := some [] }
  else
    { success := true, error := none,
      output_path := some (str "out/doc.pdf"), log := some [] }

/-! ## Module validator (`scripts/utils/module_validator.py`) -/

/-- The document-class marker searched for by `_validate_latex_content`. -/
def documentclassMarker : List Char := str "\\documentclass"

/-- The begin-content marker of the document envelope. -/
def beginMarker : List Char := str "\\begin{document}"

/-- The end-content marker of the document envelope. -/
def endMarker : List Char := str "\\end{document}"

/-- The embedded-graphics marker searched for by `_validate_latex_content`. -/
def includegraphicsMarker : List Char := str "\\includegraphics"

/-- The cross-reference marker (source literal `\ref{`). -/
def refMarker : List Char := str "\\ref\x7b"

/-- The citation marker (source literal `\cite{`). -/
def citeMarker : List Char := str "\\cite\x7b"

/-- The label marker (source literal `\label{`). -/
def labelMarker : List Char := str "\\label\x7b"

/-- The bibliography-entry marker (source literal `\bibitem{`). -/
def bibitemMarker : List Char := str "\\bibitem\x7b"

/-- Filesystem snapshot of one module directory, as observed by
`validate_module`: the directory name, the existence and is-directory
probes on the module path, an existence oracle for entries inside it, the
`glob('*.tex')` result in listing order, the `images`/`data` subfolder
probes, and a reader for file contents (`none` models a raised read
exception). -/
structure ModuleFS where
  name : List Char
  pathExists : Bool
  isDirectory : Bool
  entryExists : List Char → Bool
  texListing : List (List Char)
  imagesDirExists : Bool
  dataDirExists : Bool
  readFile : List Char → Option (List Char)

/-- The result dictionary of `validate_module`.  The `info` sub-dictionary
is flattened into `info*` fields; its `image_files`/`data_files` listings
are projected away (no claim concerns them). -/
structure ValidationResult where
  valid : Bool
  warnings : List (List Char)
  errors : List (List Char)
  infoName : List Char
  infoHasMainTex : Bool
  infoHasReadme : Bool
  infoHasImages : Bool
  infoHasData : Bool
  infoTexFiles : List (List Char)
deriving DecidableEq

/-- The ordered primary-file candidate list of `validate_module`
(module_validator.py:67). -/
def mainTexCandidates (name : List Char) : List (List Char) :=
  [str "main.tex", str "module.tex", name ++ str ".tex"]

/-- First candidate that exists, in candidate order
(module_validator.py:70-75). -/
def firstExisting (entryExists : List Char → Bool) : List (List Char) → Option (List Char)
  | [] => none
  | c :: cs => if entryExists c then some c else firstExisting entryExists cs

/-- The resolved primary file of a module, per the validator's ordered
candidate rule. -/
def mainTexCandidate (m : ModuleFS) : Option (List Char) :=
  firstExisting m.entryExists (mainTexCandidates m.name)

/-- The descriptive-file candidate list (module_validator.py:84). -/
def readmeCandidates : List (List Char) :=
  [str "README.md", str "README.txt", str "readme.md", str "readme.txt"]

/-- Whether any README candidate exists (module_validator.py:85-88). -/
def hasReadmeB (m : ModuleFS) : Bool := readmeCandidates.any m.entryExists

/-- `ModuleValidator._validate_latex_content` (module_validator.py:124-165),
returning `(warnings, errors)`.  `content = none` models the read raising,
caught as the "Failed to read LaTeX file" error.  The
`content.encode('utf-8')` probe can never fail for a string that was
decoded from utf-8, so the non-UTF-8 error branch is unreachable and
contributes nothing. -/
def validate_latex_content (content : Option (List Char)) (imagesDirExists : Bool) :
    List (List Char) × List (List Char) :=
  match content with
  | none => ([], [str "Failed to read LaTeX file"])
  | some c =>
    let errs1 :=
      if containsSub documentclassMarker c &&
          (!containsSub beginMarker c || !containsSub endMarker c) then
        [str "Complete LaTeX document structure required"]
      else []
    let warns1 :=
      if containsSub includegraphicsMarker c && !imagesDirExists then
        [str "\\includegraphics used but no images directory found"]
      else []
    let warns2 :=
      if (containsSub refMarker c || containsSub citeMarker c) &&
          (!containsSub labelMarker c && !containsSub bibitemMarker c) then
        [str "References used but no labels or bibliography found"]
      else []
    (warns1 ++ warns2, errs1)

/-- `ModuleValidator.validate_module` (module_validator.py:26-122). -/
def validate_module (m : ModuleFS) : ValidationResult :=
  if m.pathExists = false then
    { valid := false, warnings := [],
      errors := [str "Module directory not found: " ++ m.name],
      infoName := m.name, infoHasMainTex := false, infoHasReadme := false,
      infoHasImages := false, infoHasData := false, infoTexFiles := [] }
  else if m.isDirectory = false then
    { valid := false, warnings := [],
      errors := [str "Module path is not a directory: " ++ m.name],
      infoName := m.name, infoHasMainTex := false, infoHasReadme := false,
      infoHasImages := false, infoHasData := false, infoTexFiles := [] }
  else
    let mainTex := mainTexCandidate m
    let errsMain :=
      if mainTex.isNone then
        [str "No main LaTeX file found. Expected one of: main.tex, module.tex, "
          ++ m.name ++ str ".tex"]
      else []
    let warnsReadme := if hasReadmeB m then [] else [str "No README file found"]
    let contentChecks :=
      match mainTex with
      | some f => validate_latex_content (m.readFile f) m.imagesDirExists
      | none => ([], [])
    { valid := errsMain.isEmpty && contentChecks.2.isEmpty,
      warnings := warnsReadme ++ contentChecks.1,
      errors := errsMain ++ contentChecks.2,
      infoName := m.name,
      infoHasMainTex := mainTex.isSome,
      infoHasReadme := hasReadmeB m,
      infoHasImages := m.imagesDirExists,
      infoHasData := m.dataDirExists,
      infoTexFiles := m.texListing }

/-- One entry of `course_dir.iterdir()`: its is-directory flag and the
module-level snapshot used if it is validated (its name is the entry
name). -/
structure DirEntry where
  isDirectory : Bool
  module : ModuleFS

/-- Filesystem snapshot of a course directory. -/
structure CourseFS where
  courseExists : Bool
  entries : List DirEntry

/-- The result dictionary of `validate_course_structure`; the `info`
sub-dictionary is flattened, and the `modules` name-to-result dict is a
list of pairs in insertion order (directory entries of a real filesystem
have unique names). -/
structure CourseValidation where
  valid : Bool
  warnings : List (List Char)
  errors : List (List Char)
  modules : List (List Char × ValidationResult)
  infoTotal : Nat
  infoValid : Nat
  infoInvalid : Nat
deriving DecidableEq

/-- Python `name.startswith('.')`. -/
def startsWithDot : List Char → Bool
  | '.' :: _ => true
  | _ => false

/-- The candidate module directories: immediate entries that are
directories and not hidden (module_validator.py:198). -/
def courseModuleDirs (c : CourseFS) : List DirEntry :=
  c.entries.filter (fun e => e.isDirectory && !startsWithDot e.module.name)

/-- The per-module validation loop of `validate_course_structure`
(module_validator.py:206-215), threading the accumulated result. -/
def accumulateModules : List DirEntry → CourseValidation → CourseValidation
  | [], acc => acc
  | d :: ds, acc =>
    let r := validate_module d.module
    accumulateModules ds
      { acc with
        modules := acc.modules ++ [(d.module.name, r)],
        infoTotal := acc.infoTotal + 1,
        infoValid := acc.infoValid + (if r.valid then 1 else 0),
        infoInvalid := acc.infoInvalid + (if r.valid then 0 else 1),
        valid := acc.valid && r.valid }

/-- `ModuleValidator.validate_course_structure`
(module_validator.py:167-217). -/
def validate_course_structure (c : CourseFS) : CourseValidation :=
  if c.courseExists = false then
    { valid := false, warnings := [], errors := [str "Course directory not found"],
      modules := [], infoTotal := 0, infoValid := 0, infoInvalid := 0 }
  else if (courseModuleDirs c).isEmpty then
    { valid := false, warnings := [], errors := [str "No module directories found"],
      modules := [], infoTotal := 0, infoValid := 0, infoInvalid := 0 }
  else
    accumulateModules (courseModuleDirs c)
      { valid := true, warnings := [], errors := [], modules := [],
        infoTotal := 0, infoValid := 0, infoInvalid := 0 }

/-- Witness module for C4: well-formed except for the missing README. -/
def c4Module : ModuleFS :=
  { name := str "m4", pathExists := true, isDirectory := true,
    entryExists := fun e => e == str "main.tex",
    texListing := [str "main.tex"], imagesDirExists := false,
    dataDirExists := false,
    readFile := fun f => if f == str "main.tex" then some (str "Hello") else none }

/-- Witness module for C6: its primary file declares a document class but
has neither envelope marker. -/
def c6Module : ModuleFS :=
  { name := str "m6", pathExists := true, isDirectory := true,
    entryExists := fun e => e == str "main.tex",
    texListing := [str "main.tex"], imagesDirExists := false,
    dataDirExists := false,
    readFile := fun f =>
      if f == str "main.tex" then some (str "\\documentclass\x7barticle\x7d only")
      else none }

/-- A module directory with no primary-file candidate at all (broken, for
the C5 witness). -/
def c5BrokenModule (nm : String) : ModuleFS :=
  { name := str nm, pathExists := true, isDirectory := true,
    entryExists := fun _ => false, texListing := [], imagesDirExists := false,
    dataDirExists := false, readFile := fun _ => none }

/-- A module directory holding a plain `main.tex` (valid, for the C5
witness). -/
def c5GoodModule (nm : String) : ModuleFS :=
  { name := str nm, pathExists := true, isDirectory := true,
    entryExists := fun e => e == str "main.tex",
    texListing := [str "main.tex"], imagesDirExists := false,
    dataDirExists := false,
    readFile := fun f => if f == str "main.tex" then some (str "content") else none }

/-- C5 witness course: five module folders, two broken (spec property 7). -/
def c5Course : CourseFS :=
  { courseExists := true,
    entries :=
      [⟨true, c5GoodModule "m1"⟩, ⟨true, c5BrokenModule "m2"⟩,
       ⟨true, c5GoodModule "m3"⟩, ⟨true, c5BrokenModule "m4"⟩,
       ⟨true, c5GoodModule "m5"⟩] }

/-! ## PDF merger (`scripts/utils/pdf_merger.py`) -/

/-- The backend resolved at construction (`'pypdf2'`, `'reportlab'`, or
`'none'` in the source). -/
inductive Backend where
  | pypdf2
  | reportlab
  | nobackend
deriving DecidableEq

/-- Environment oracle for `merge_pdfs`: the resolved backend, an
existence probe for input paths, and whether writing the output (the only
exception source in the backend helpers) succeeds. -/
structure MergeEnv where
  backend : Backend
  fileExists : List Char → Bool
  writeOk : Bool

/-- The result dictionary of `merge_pdfs` (absent keys are `none`). -/
structure MergeResult where
  success : Bool
  error : Option (List Char)
  output_path : Option (List Char)
  files_merged : Option Nat
  backendUsed : Option (List Char)
  warning : Option (List Char)
deriving DecidableEq

/-- The input filter of `merge_pdfs` (pdf_merger.py:94-100): the path
exists and `path.suffix.lower() == '.pdf'`. -/
def validPdfInput (env : MergeEnv) (p : List Char) : Bool :=
  env.fileExists p && (pyToLower (pathSuffix p) == str ".pdf")

/-- The bookmark chosen for the `i`-th appended file in
`_merge_with_pypdf2` (pdf_merger.py:138-142).  Python's `None` and `[]`
are both falsy and behave identically there, so both are modelled as
`[]`. -/
def bookmarkFor (bookmarks : List (List Char)) (i : Nat) (f : List Char) :
    Option (List Char) :=
  if bookmarks ≠ [] ∧ i < bookmarks.length then bookmarks.get? i
  else if bookmarks = [] then some (pathStem f)
  else none

/-- The sequence of `merger.append(file, bookmark=..)` calls performed by
`_merge_with_pypdf2`, in order (appends raising I/O errors are logged and
skipped in the source; the pure model has them succeed). -/
def pypdf2Appends (files : List (List Char)) (bookmarks : List (List Char)) :
    List (List Char × Option (List Char)) :=
  files.enum.map (fun p => (p.2, bookmarkFor bookmarks p.1 p.2))

/-- Independent statement of the amended bookmark-label rule, for
comparison with `bookmarkFor`. -/
def labelSpec (bookmarks : List (List Char)) (i : Nat) (f : List Char) :
    Option (List Char) :=
  if bookmarks = [] then some (pathStem f)
  else if i < bookmarks.length then bookmarks.get? i
  else none

/-- `PDFMerger._merge_with_pypdf2` (pdf_merger.py:121-171): result value. -/
def mergeWithPypdf2 (env : MergeEnv) (files : List (List Char))
    (outputPath : List Char) : MergeResult :=
  if env.writeOk then
    { success := true, error := none, output_path := some outputPath,
      files_merged := some files.length, backendUsed := some (str "pypdf2"),
      warning := none }
  else
    { success := false, error := some (str "PDF merge failed"), output_path := none,
      files_merged := none, backendUsed := none, warning := none }

/-- `PDFMerger._merge_with_reportlab` (pdf_merger.py:173-223): the
degraded backend only synthesizes a cover page, reporting success with a
warning. -/
def mergeWithReportlab (env : MergeEnv) (files : List (List Char))
    (outputPath : List Char) : MergeResult :=
  if env.writeOk then
    { success := true, error := none, output_path := some outputPath,
      files_merged := some files.length, backendUsed := some (str "reportlab"),
      warning := some (str "Only cover page created. Install PyPDF2 for full merging.") }
  else
    { success := false, error := some (str "PDF creation failed"), output_path := none,
      files_merged := none, backendUsed := none, warning := none }

/-- `PDFMerger.merge_pdfs` (pdf_merger.py:73-119). -/
def merge_pdfs (env : MergeEnv) (pdfFiles : List (List Char))
    (outputPath : List Char) : MergeResult :=
  if env.backend = Backend.nobackend then
    { success := false,
      error := some (str "No PDF processing library available. Install PyPDF2 or ReportLab."),
      output_path := none, files_merged := none, backendUsed := none, warning := none }
  else
    let validFiles := pdfFiles.filter (validPdfInput env)
    if validFiles = [] then
      { success := false, error := some (str "No valid PDF files to merge"),
        output_path := none, files_merged := none, backendUsed := none, warning := none }
    else
      match env.backend with
      | .pypdf2 => mergeWithPypdf2 env validFiles outputPath
      | .reportlab => mergeWithReportlab env validFiles outputPath
      | .nobackend =>
        { success := false, error := some (str "No supported PDF backend available"),
          output_path := none, files_merged := none, backendUsed := none, warning := none }

/-- C7 witness environment: degraded (reportlab) backend, `a.pdf` and
`b.pdf` on disk, output writable. -/
def c7Env : MergeEnv :=
  { backend := .reportlab,
    fileExists := fun p => p == str "a.pdf" || p == str "b.pdf",
    writeOk := true }

/-- C7 witness inputs (spec property 6). -/
def c7Inputs : List (List Char) := [str "a.pdf", str "missing.pdf", str "b.pdf"]

/-- C9 files: two valid inputs. -/
def c9Files : List (List Char) := [str "a.pdf", str "b.pdf"]

/-- C9 bookmarks: an explicit list shorter than the file list. -/
def c9Bookmarks : List (List Char) := [str "x"]

/-! ## File manager (`scripts/utils/file_manager.py`) -/

/-- The default package list of `create_latex_document`
(file_manager.py:53-64). -/
def defaultPackages : List (List Char) :=
  [str "inputenc{utf8}", str "fontenc{T1}", str "geometry{margin=1in}",
   str "hyperref", str "graphicx", str "amsmath", str "amsfonts",
   str "listings", str "xcolor"]

/-- The `\usepackage` lines of the generated preamble
(file_manager.py:70-71). -/
def packagesBlock (packages : List (List Char)) : List Char :=
  (packages.map (fun p => str "\\usepackage\x7b" ++ p ++ str "\x7d\n")).flatten

/-- Everything `create_latex_document` emits before the begin-content
marker (file_manager.py:67-74). -/
def latexPreamble (documentClass : List Char) (packages : List (List Char)) : List Char :=
  str "\\documentclass\x7b" ++ documentClass ++ str "\x7d\n\n" ++
    packagesBlock packages ++ str "\n"

/-- The full document text assembled by
`FileManager.create_latex_document` (file_manager.py:38-92); the claims
concern this text (the function then writes it under the working
directory, defaulting the `.tex` extension). -/
def create_latex_document_text (content documentClass : List Char)
    (packages : List (List Char)) : List Char :=
  latexPreamble documentClass packages ++ beginMarker ++ str "\n\n" ++
    content ++ str "\n\n" ++ endMarker ++ str "\n"

/-- The preamble for the default class and package list. -/
def defaultPreamble : List Char := latexPreamble (str "article") defaultPackages

/-- `FileManager._extract_document_content` (file_manager.py:147-167):
slice strictly between the first begin marker and the first end marker,
stripped; if either marker is absent the content is returned verbatim. -/
def extract_document_content (latexContent : List Char) : List Char :=
  match find beginMarker latexContent, find endMarker latexContent with
  | some b, some e =>
    pyStrip ((latexContent.drop (b + beginMarker.length)).take
      (e - (b + beginMarker.length)))
  | _, _ => latexContent

/-- One entry of the `module_paths` argument of `combine_modules`,
together with the filesystem facts the loop consults about it: a
directory (final component name, `glob('*.tex')` names in listing order,
file reader) or a direct file path (final component name, existence,
readable content).  `none` from a reader models a raised read error,
which the loop logs and skips. -/
inductive CombineInput where
  | dir (name : List Char) (texListing : List (List Char))
      (readFile : List Char → Option (List Char))
  | file (name : List Char) (fileExists : Bool) (content : Option (List Char))

/-- The final path component of a combine input. -/
def inputName : CombineInput → List Char
  | .dir n _ _ => n
  | .file n _ _ => n

/-- `f.name in ['main.tex', 'module.tex']` (file_manager.py:113). -/
def isMainName (f : List Char) : Bool := f == str "main.tex" || f == str "module.tex"

/-- Python `str.replace('_', ' ')` (single-character replacement). -/
def replaceUnderscores (cs : List Char) : List Char :=
  cs.map (fun c => if c == '_' then ' ' else c)

/-- Python `str.title()` (ASCII): a character following a cased character
is lowercased, any other is uppercased; the carried flag is whether the
previous input character was cased (alphabetic, for ASCII). -/
def pyTitleAux : Bool → List Char → List Char
  | _, [] => []
  | prevCased, c :: cs =>
    (if prevCased then c.toLower else c.toUpper) :: pyTitleAux c.isAlpha cs

/-- Python `str.title()`. -/
def pyTitle (cs : List Char) : List Char := pyTitleAux false cs

/-- The generated section heading:
`module_path.stem.replace('_', ' ').title()` applied after `pathStem`
(file_manager.py:137). -/
def sectionTitle (stemName : List Char) : List Char := pyTitle (replaceUnderscores stemName)

/-- The directory-case source-file choice of `combine_modules`
(file_manager.py:110-121): the first globbed file named
`main.tex`/`module.tex`, else the first globbed `.tex` file, else
nothing. -/
def resolveTexFile (texListing : List (List Char)) : Option (List Char) :=
  match texListing.filter isMainName with
  | f :: _ => some f
  | [] =>
    match texListing with
    | f :: _ => some f
    | [] => none

/-- One iteration of the `combine_modules` loop (file_manager.py:107-142):
resolve the module's source file, read it, and produce the section
heading together with the extracted body; `none` means the module is
skipped with a logged warning.  (A globbed file exists on disk, so the
`tex_file.exists()` re-check only matters for direct file paths.) -/
def processModule : CombineInput → Option (List Char × List Char)
  | .dir name texListing readFile =>
    (match resolveTexFile texListing with
     | none => none
     | some f =>
       match readFile f with
       | none => none
       | some content =>
         some (sectionTitle (pathStem name), extract_document_content content))
  | .file name fileExists content =>
    if fileExists then
      match content with
      | none => none
      | some c => some (sectionTitle (pathStem name), extract_document_content c)
    else none

/-- The text appended to `combined_content` for one module
(file_manager.py:137-138). -/
def renderBlock (b : List Char × List Char) : List Char :=
  str "\\section\x7b" ++ b.1 ++ str "\x7d\n" ++ b.2 ++ str "\n\n"

/-- The accumulation loop over `module_paths` building `combined_content`. -/
def combineContentLoop : List CombineInput → List Char → List Char
  | [], acc => acc
  | m :: ms, acc =>
    match processModule m with
    | none => combineContentLoop ms acc
    | some b => combineContentLoop ms (acc ++ renderBlock b)

/-- The `combined_content` string built by `combine_modules`
(file_manager.py:105-142). -/
def combine_modules_content (inputs : List CombineInput) : List Char :=
  combineContentLoop inputs []

/-- The per-module blocks (heading, extracted body) that survive the
loop, in input order. -/
def combineBlocks (inputs : List CombineInput) : List (List Char × List Char) :=
  inputs.filterMap processModule

/-- The section headings of the combined document, in emission order. -/
def combineHeadings (inputs : List CombineInput) : List (List Char) :=
  (combineBlocks inputs).map Prod.fst

/-- `FileManager.combine_modules` (file_manager.py:94-145): the document
text finally produced via `create_latex_document` with its default class
and packages. -/
def combine_modules (inputs : List CombineInput) : List Char :=
  create_latex_document_text (combine_modules_content inputs) (str "article")
    defaultPackages

/-- The validator's ordered-candidate rule (module_validator.py:67-75)
expressed over a directory's `.tex` listing — every candidate carries the
`.tex` extension, so existence in the directory coincides with presence
in the `glob('*.tex')` result. -/
def validatorPrimaryName (name : List Char) (texListing : List (List Char)) :
    Option (List Char) :=
  firstExisting (fun c => texListing.contains c) (mainTexCandidates name)

/-- Independent statement of the amended resolution rule of
`combine_modules`: the first listed file named `main.tex` or
`module.tex`, else the first listed `.tex` file, else nothing. -/
def combineResolvedTex (texListing : List (List Char)) : Option (List Char) :=
  match texListing.filter isMainName with
  | f :: _ => some f
  | [] => texListing.head?

/-- C3 counterexample input: a directory whose only `.tex` file matches
none of the validator's candidates. -/
def c3Dir : CombineInput :=
  .dir (str "m1") [str "notes.tex"]
    (fun f => if f == str "notes.tex" then some (str "body") else none)

/-- C8 counterexample input: a module folder whose name contains a dot. -/
def c8DottedDir : CombineInput :=
  .dir (str "intro.v1") [str "main.tex"]
    (fun f => if f == str "main.tex" then some (str "x") else none)

/-- C8 witness module A. -/
def c8A : CombineInput :=
  .dir (str "mod_one") [str "main.tex"]
    (fun f => if f == str "main.tex" then some (str "alpha") else none)

/-- C8 witness module B. -/
def c8B : CombineInput :=
  .dir (str "mod_two") [str "module.tex"]
    (fun f => if f == str "module.tex" then some (str "beta") else none)

/-- `defaultPreamble` without its final newline (it ends with a newline;
used to confine marker occurrences). -/
def preInit : List Char := defaultPreamble.dropLast

/-- Everything of the generated document before the content separator:
preamble, begin marker and the two newlines after it. -/
def frontA : List Char := defaultPreamble ++ beginMarker ++ str "\n\n"

/-- `frontA` without its final newline. -/
def frontInit : List Char := frontA.dropLast

end GWF

namespace GWF

/-- C1: `compile_tex_file` reports success exactly when the source file
exists, the compiler is installed, the subprocess completes with exit
status zero, and the expected artifact (same base name, `.pdf` extension,
in the output directory) exists afterward; in particular a zero exit code
with no artifact present yields a failure result. -/
theorem c1_compile_success_iff (env : CompileEnv) (texName : List Char)
    (outputDir : Option (List Char)) :
    (compile_tex_file env texName outputDir).success = true ↔
      (env.texFileExists = true ∧ env.latexInstalled = true ∧
        ∃ out errS, env.outcome = RunOutcome.completed 0 out errS ∧
          env.pdfExistsAfter (expectedPdfPath env texName outputDir) = true) := by
  unfold compile_tex_file
  rcases hT : env.texFileExists with _ | _ <;>
    rcases hL : env.latexInstalled with _ | _ <;>
    rcases hO : env.outcome with ⟨rc, out, errS⟩ | _ | m <;>
    simp [hT, hL, hO]
  by_cases h0 : rc = 0 <;> by_cases hp : env.pdfExistsAfter (expectedPdfPath env texName outputDir) = true <;>
    simp [h0, hp]

/-- The multi-pass loop performs at most `fuel` compiler invocations. -/
theorem runPassesFrom_calls_le (results : Nat → CompileResult) :
    ∀ (fuel i : Nat), (runPassesFrom results i fuel).2 ≤ fuel := by
  intro fuel
  induction fuel with
  | zero => intro i; exact Nat.le_refl 0
  | succ n ih =>
    intro i
    by_cases h : (results i).success = false
    · unfold runPassesFrom
      rw [if_pos h]
      simp
    · cases n with
      | zero =>
        unfold runPassesFrom
        rw [if_neg h]
      | succ m =>
        unfold runPassesFrom
        rw [if_neg h]
        exact Nat.succ_le_succ (ih (i + 1))

/-- If the first `k` passes succeed and pass `k` fails (within the pass
budget), the loop stops right after pass `k` and returns its result. -/
theorem runPassesFrom_fail (results : Nat → CompileResult) :
    ∀ (k fuel i : Nat), k < fuel →
      (∀ j, j < k → (results (i + j)).success = true) →
      (results (i + k)).success = false →
      runPassesFrom results i fuel = (some (results (i + k)), k + 1) := by
  intro k
  induction k with
  | zero =>
    intro fuel i hk _ hfail
    cases fuel with
    | zero => omega
    | succ n =>
      simp only [Nat.add_zero] at hfail
      cases n with
      | zero =>
        unfold runPassesFrom
        rw [if_pos hfail]
        simp
      | succ m =>
        unfold runPassesFrom
        rw [if_pos hfail]
        simp
  | succ k ih =>
    intro fuel i hk hsucc hfail
    cases fuel with
    | zero => omega
    | succ n =>
      have h0 : (results i).success = true := by simpa using hsucc 0 (Nat.succ_pos k)
      have hne : ¬ (results i).success = false := by simp [h0]
      cases n with
      | zero => omega
      | succ m =>
        have ihh := ih (m + 1) (i + 1) (by omega)
          (fun j hj => by
            rw [show i + 1 + j = i + (j + 1) by omega]
            exact hsucc (j + 1) (by omega))
          (by rw [show i + 1 + k = i + (k + 1) by omega]; exact hfail)
        unfold runPassesFrom
        rw [if_neg hne]
        show ((runPassesFrom results (i + 1) (m + 1)).1,
          (runPassesFrom results (i + 1) (m + 1)).2 + 1) = _
        rw [ihh, show i + 1 + k = i + (k + 1) by omega]

/-- If every pass within the budget succeeds, the loop runs the full
budget and returns the final pass's result. -/
theorem runPassesFrom_all_ok (results : Nat → CompileResult) :
    ∀ (fuel i : Nat), 0 < fuel →
      (∀ j, j < fuel → (results (i + j)).success = true) →
      runPassesFrom results i fuel = (some (results (i + (fuel - 1))), fuel) := by
  intro fuel
  induction fuel with
  | zero => intro i h; omega
  | succ n ih =>
    intro i _ hsucc
    have h0 : (results i).success = true := by simpa using hsucc 0 (Nat.succ_pos n)
    have hne : ¬ (results i).success = false := by simp [h0]
    cases n with
    | zero =>
      unfold runPassesFrom
      rw [if_neg hne]
      simp
    | succ m =>
      have ihh := ih (i + 1) (Nat.succ_pos m)
        (fun j hj => by
          rw [show i + 1 + j = i + (j + 1) by omega]
          exact hsucc (j + 1) (by omega))
      unfold runPassesFrom
      rw [if_neg hne]
      show ((runPassesFrom results (i + 1) (m + 1)).1,
        (runPassesFrom results (i + 1) (m + 1)).2 + 1) = _
      rw [ihh, show i + 1 + (m + 1 - 1) = i + (m + 1 + 1 - 1) by omega]

/-- C2: for every `passes >= 1`, `compile_multiple_passes` invokes
`compile_tex_file` at most `passes` times; it stops immediately after the
first failing pass and returns that pass's result (later passes never
run), and when every pass succeeds it returns the final pass's result
after exactly `passes` invocations. -/
theorem c2_multiple_passes (results : Nat → CompileResult) (passes : Nat)
    (hp : 1 ≤ passes) :
    compile_multiple_passes_calls results passes ≤ passes ∧
    (∀ k, k < passes → (∀ j, j < k → (results j).success = true) →
      (results k).success = false →
      compile_multiple_passes results passes = some (results k) ∧
        compile_multiple_passes_calls results passes = k + 1) ∧
    ((∀ j, j < passes → (results j).success = true) →
      compile_multiple_passes results passes = some (results (passes - 1)) ∧
        compile_multiple_passes_calls results passes = passes) := by
  refine ⟨runPassesFrom_calls_le results passes 0, ?_, ?_⟩
  · intro k hk hs hf
    have h := runPassesFrom_fail results k passes 0 hk
      (fun j hj => by simpa using hs j hj) (by simpa using hf)
    constructor
    · unfold compile_multiple_passes; rw [h]; simp
    · unfold compile_multiple_passes_calls; rw [h]
  · intro hs
    have h := runPassesFrom_all_ok results passes 0 (by omega)
      (fun j hj => by simpa using hs j hj)
    constructor
    · unfold compile_multiple_passes; rw [h]; simp
    · unfold compile_multiple_passes_calls; rw [h]

/-- Witness for C2 (spec property 5): with a compiler failing on pass 2,
`passes = 3` performs exactly 2 invocations and returns the pass-2
failure. -/
theorem c2_multiple_passes_witness :
    compile_multiple_passes c2WitnessResults 3 = some (c2WitnessResults 1) ∧
      compile_multiple_passes_calls c2WitnessResults 3 = 2 :=
  (c2_multiple_passes c2WitnessResults 3 (by norm_num)).2.1 1 (by norm_num)
    (fun j hj => by
      have hj0 : j = 0 := by omega
      subst hj0
      decide)
    (by decide)

/-- C4: `validate_module` satisfies `valid = (errors = [])`; warnings never
affect `valid`, and a module whose only defect is a missing README is
reported valid with exactly the one warning about the missing file. -/
theorem c4_valid_iff_no_errors (m : ModuleFS) (f : List Char) :
    ((validate_module m).valid = true ↔ (validate_module m).errors = []) ∧
    (m.pathExists = true → m.isDirectory = true →
      mainTexCandidate m = some f → hasReadmeB m = false →
      validate_latex_content (m.readFile f) m.imagesDirExists = ([], []) →
      (validate_module m).valid = true ∧
        (validate_module m).warnings = [str "No README file found"]) := by
  constructor
  · unfold validate_module
    rcases hP : m.pathExists with _ | _
    · simp [str]
    · rcases hD : m.isDirectory with _ | _
      · simp [str]
      · simp only [Bool.true_eq_false, if_false]
        rcases hMain : mainTexCandidate m with _ | f₀ <;>
          simp [hMain, List.isEmpty_iff, List.append_eq_nil, str]
  · intro h1 h2 h3 h4 h5
    unfold validate_module
    rw [h1, h2]
    simp [h3, h4, h5]

/-- Witness for C4: a module missing only its README validates as valid
with exactly one warning. -/
theorem c4_valid_iff_no_errors_witness :
    (validate_module c4Module).valid = true ∧
      (validate_module c4Module).warnings = [str "No README file found"] :=
  (c4_valid_iff_no_errors c4Module (str "main.tex")).2 rfl rfl (by decide)
    (by decide) (by decide)

/-- C6: a primary file that declares a document class but contains neither
envelope marker yields the "Complete LaTeX document structure required"
error, the module is invalid, and the condition is never only a
warning. -/
theorem c6_envelope_error (m : ModuleFS) (f c : List Char)
    (h1 : m.pathExists = true) (h2 : m.isDirectory = true)
    (h3 : mainTexCandidate m = some f) (h4 : m.readFile f = some c)
    (h5 : containsSub documentclassMarker c = true)
    (h6 : containsSub beginMarker c = false)
    (h7 : containsSub endMarker c = false) :
    str "Complete LaTeX document structure required" ∈ (validate_module m).errors ∧
    (validate_module m).valid = false ∧
    str "Complete LaTeX document structure required" ∉ (validate_module m).warnings := by
  unfold validate_module
  rw [h1, h2]
  simp only [Bool.true_eq_false, if_false, h3]
  unfold validate_latex_content
  rw [h4]
  simp only [h5, h6, h7, Bool.not_false, Bool.true_or, Bool.and_self, if_true,
    Bool.true_and, Option.isNone_some, Bool.false_eq_true, Option.isSome_some]
  refine ⟨by simp, by simp, ?_⟩
  split_ifs <;> simp_all <;> decide

/-- Witness for C6 at a concrete module. -/
theorem c6_envelope_error_witness :
    str "Complete LaTeX document structure required" ∈ (validate_module c6Module).errors ∧
    (validate_module c6Module).valid = false ∧
    str "Complete LaTeX document structure required" ∉ (validate_module c6Module).warnings :=
  c6_envelope_error c6Module (str "main.tex") (str "\\documentclass\x7barticle\x7d only")
    rfl rfl (by decide) (by decide) (by decide) (by decide) (by decide)

/-- Unfolding of the course-validation loop: final flag, counts and module
map in terms of the accumulator and the processed list. -/
theorem accumulateModules_spec (ds : List DirEntry) :
    ∀ acc : CourseValidation,
      (accumulateModules ds acc).valid =
          (acc.valid && ds.all (fun e => (validate_module e.module).valid)) ∧
      (accumulateModules ds acc).infoTotal = acc.infoTotal + ds.length ∧
      (accumulateModules ds acc).infoValid =
          acc.infoValid + ds.countP (fun e => (validate_module e.module).valid) ∧
      (accumulateModules ds acc).infoInvalid =
          acc.infoInvalid + ds.countP (fun e => !(validate_module e.module).valid) ∧
      (accumulateModules ds acc).modules =
          acc.modules ++ ds.map (fun e => (e.module.name, validate_module e.module)) := by
  induction ds with
  | nil => intro acc; simp [accumulateModules]
  | cons d ds ih =>
    intro acc
    simp only [accumulateModules]
    have h := ih
      { acc with
        modules := acc.modules ++ [(d.module.name, validate_module d.module)],
        infoTotal := acc.infoTotal + 1,
        infoValid := acc.infoValid + (if (validate_module d.module).valid then 1 else 0),
        infoInvalid := acc.infoInvalid + (if (validate_module d.module).valid then 0 else 1),
        valid := acc.valid && (validate_module d.module).valid }
    refine ⟨?_, ?_, ?_, ?_, ?_⟩
    · rw [h.1]
      simp [Bool.and_assoc]
    · rw [h.2.1]
      show acc.infoTotal + 1 + ds.length = acc.infoTotal + (ds.length + 1)
      omega
    · rw [h.2.2.1]
      rcases hv : (validate_module d.module).valid with _ | _ <;> simp [List.countP_cons, hv] <;>
        omega
    · rw [h.2.2.2.1]
      rcases hv : (validate_module d.module).valid with _ | _ <;> simp [List.countP_cons, hv] <;>
        omega
    · rw [h.2.2.2.2]
      simp

/-- C5: for an existing course directory, the aggregate is valid iff at
least one (non-hidden) module directory exists and every one of them is
valid; every candidate is validated independently (the module map lists
each one's own result), and the total/valid/invalid counts agree with the
per-module results. -/
theorem c5_course_structure (c : CourseFS) (hc : c.courseExists = true) :
    ((validate_course_structure c).valid = true ↔
      (courseModuleDirs c ≠ [] ∧
        ∀ e ∈ courseModuleDirs c, (validate_module e.module).valid = true)) ∧
    (validate_course_structure c).infoTotal = (courseModuleDirs c).length ∧
    (validate_course_structure c).infoValid =
      (courseModuleDirs c).countP (fun e => (validate_module e.module).valid) ∧
    (validate_course_structure c).infoInvalid =
      (courseModuleDirs c).countP (fun e => !(validate_module e.module).valid) ∧
    (validate_course_structure c).modules =
      (courseModuleDirs c).map (fun e => (e.module.name, validate_module e.module)) := by
  unfold validate_course_structure
  rw [hc]
  simp only [Bool.true_eq_false, if_false]
  rcases hE : courseModuleDirs c with _ | ⟨d, ds⟩
  · simp
  · have h := accumulateModules_spec (d :: ds)
      { valid := true, warnings := [], errors := [], modules := [],
        infoTotal := 0, infoValid := 0, infoInvalid := 0 }
    simp only [List.isEmpty_cons, if_false, Bool.false_eq_true]
    refine ⟨?_, by simpa using h.2.1, by simpa using h.2.2.1,
      by simpa using h.2.2.2.1, by simpa using h.2.2.2.2⟩
    rw [h.1]
    simp [List.all_eq_true]

/-- Witness for C5 (spec property 7): five module folders, two broken,
give total 5, valid 3, invalid 2, and an invalid course overall. -/
theorem c5_course_structure_witness :
    (validate_course_structure c5Course).infoTotal = 5 ∧
    (validate_course_structure c5Course).infoValid = 3 ∧
    (validate_course_structure c5Course).infoInvalid = 2 ∧
    (validate_course_structure c5Course).valid = false := by
  have h := c5_course_structure c5Course rfl
  refine ⟨by rw [h.2.1]; decide, by rw [h.2.2.1]; decide, by rw [h.2.2.2.1]; decide, ?_⟩
  rcases hb : (validate_course_structure c5Course).valid with _ | _
  · rfl
  · exfalso
    rcases h.1.mp hb with ⟨_, hall⟩
    have hmem : (⟨true, c5BrokenModule "m2"⟩ : DirEntry) ∈ courseModuleDirs c5Course :=
      List.Mem.tail _ (List.Mem.head _)
    exact absurd (hall _ hmem) (by decide)

/-- A list is a prefix of itself followed by anything. -/
theorem isPrefixOf_append_self (pat t : List Char) : pat.isPrefixOf (pat ++ t) = true :=
  List.isPrefixOf_iff_prefix.mpr (List.prefix_append pat t)

/-- `find` locates `pat` right after `a` when `pat` heads the remainder
and no earlier position matches. -/
theorem find_append_at (pat : List Char) :
    ∀ (a : List Char) (rest : List Char), pat.isPrefixOf rest = true →
      (∀ i, i < a.length → pat.isPrefixOf (a.drop i ++ rest) = false) →
      find pat (a ++ rest) = some a.length := by
  intro a
  induction a with
  | nil =>
    intro rest hp _
    rcases rest with _ | ⟨c, cs⟩ <;> simp [find, hp]
  | cons c a ih =>
    intro rest hp h
    have h0 : pat.isPrefixOf (c :: (a ++ rest)) = false := by
      simpa using h 0 (by simp)
    show find pat (c :: (a ++ rest)) = some (a.length + 1)
    simp only [find, h0, Bool.false_eq_true, if_false]
    rw [ih rest hp (fun i hi => by simpa using h (i + 1) (by simpa using hi))]
    rfl

/-- When `find` fails, no position matches. -/
theorem find_none_not_at (pat : List Char) :
    ∀ (s : List Char), find pat s = none →
      ∀ i, pat.isPrefixOf (s.drop i) = false := by
  intro s
  induction s with
  | nil =>
    intro h i
    simp only [List.drop_nil]
    by_cases hp : pat.isPrefixOf ([] : List Char) = true
    · exact absurd h (by simp [find, hp])
    · exact Bool.eq_false_iff.mpr hp
  | cons c cs ih =>
    intro h i
    by_cases hp : pat.isPrefixOf (c :: cs) = true
    · exact absurd h (by simp [find, hp])
    · have hrec : find pat cs = none := by
        have h2 := h
        simp only [find, hp, if_false] at h2
        simpa using h2
      cases i with
      | zero => exact Bool.eq_false_iff.mpr hp
      | succ j => simpa using ih hrec j

/-- A pattern avoiding the character `c` that matches at the start of
`u ++ c :: v` must fit inside `u`. -/
theorem prefix_confined (pat u v : List Char) (c : Char) (hc : c ∉ pat)
    (h : pat.isPrefixOf (u ++ c :: v) = true) : pat.isPrefixOf u = true := by
  have hpre : pat <+: u ++ c :: v := List.isPrefixOf_iff_prefix.mp h
  have hlen : pat.length ≤ u.length := by
    by_contra hlt
    push_neg at hlt
    obtain ⟨t, ht⟩ := hpre
    have h1 : (pat ++ t).get? u.length = pat.get? u.length := List.get?_append hlt
    have h2 : (u ++ c :: v).get? u.length = some c := by
      rw [List.get?_append_right (Nat.le_refl _)]
      simp
    rw [ht, h2] at h1
    exact hc (List.get?_mem h1.symm)
  have heq : pat = (u ++ c :: v).take pat.length := List.prefix_iff_eq_take.mp hpre
  rw [List.take_append_of_le_length hlen] at heq
  exact List.isPrefixOf_iff_prefix.mpr (List.prefix_iff_eq_take.mpr heq)

/-- The generated preamble ends with a newline. -/
theorem pre_newline : defaultPreamble = preInit ++ ['\n'] := by decide

/-- The generated front (preamble, begin marker, separator) ends with a
newline. -/
theorem front_newline : frontA = frontInit ++ ['\n'] := by decide

/-- The begin marker occurs nowhere in the preamble body. -/
theorem begin_not_in_preInit :
    ∀ i, i ≤ preInit.length → beginMarker.isPrefixOf (preInit.drop i) = false := by decide

/-- The end marker occurs nowhere in the front body. -/
theorem end_not_in_frontInit :
    ∀ i, i ≤ frontInit.length → endMarker.isPrefixOf (frontInit.drop i) = false := by decide

/-- The begin marker contains no newline. -/
theorem newline_not_mem_begin : ('\n' : Char) ∉ beginMarker := by decide

/-- The end marker contains no newline. -/
theorem newline_not_mem_end : ('\n' : Char) ∉ endMarker := by decide

/-- Stripping consumes a leading newline. -/
theorem dropWhile_nn (l : List Char) :
    List.dropWhile isPySpace ('\n' :: l) = List.dropWhile isPySpace l := by
  rw [List.dropWhile_cons, if_pos (by decide)]

/-- `strip` ignores the two-newline padding added around the content. -/
theorem pyStrip_wrap (x : List Char) :
    pyStrip ('\n' :: ('\n' :: (x ++ str "\n\n"))) = pyStrip x := by
  unfold pyStrip
  rw [dropWhile_nn, dropWhile_nn, List.dropWhile_append]
  by_cases hx : (x.dropWhile isPySpace).isEmpty
  · rw [if_pos hx]
    have hx' : x.dropWhile isPySpace = [] := by simpa using hx
    rw [hx']
    decide
  · rw [if_neg hx, List.reverse_append]
    have e2 : (str "\n\n").reverse = '\n' :: ['\n'] := by decide
    rw [e2]
    show (List.dropWhile isPySpace
      ('\n' :: ('\n' :: (x.dropWhile isPySpace).reverse))).reverse = _
    rw [dropWhile_nn, dropWhile_nn]

/-- `_extract_document_content` with both markers found. -/
theorem extract_document_content_found (s : List Char) (b e : Nat)
    (hb : find beginMarker s = some b) (he : find endMarker s = some e) :
    extract_document_content s =
      pyStrip ((s.drop (b + beginMarker.length)).take (e - (b + beginMarker.length))) := by
  unfold extract_document_content
  rw [hb, he]

/-- The first occurrence of the begin marker in a generated document is
the generated one, whatever follows it. -/
theorem find_begin_doc (rest : List Char) :
    find beginMarker (defaultPreamble ++ (beginMarker ++ rest)) =
      some defaultPreamble.length := by
  apply find_append_at
  · exact isPrefixOf_append_self _ _
  · intro i hi
    have hle : i ≤ preInit.length := by
      have h2 : defaultPreamble.length = preInit.length + 1 := by
        rw [pre_newline]; simp
      omega
    rw [pre_newline, List.drop_append_of_le_length hle, List.append_assoc]
    cases hP : beginMarker.isPrefixOf
        (preInit.drop i ++ (['\n'] ++ (beginMarker ++ rest))) with
    | false => rfl
    | true =>
      exfalso
      have hconf := prefix_confined beginMarker (preInit.drop i)
        (beginMarker ++ rest) '\n' newline_not_mem_begin hP
      simp [begin_not_in_preInit i hle] at hconf

/-- The first occurrence of the end marker in a generated document whose
content avoids it is the generated one. -/
theorem find_end_doc (content : List Char) (hE : find endMarker content = none) :
    find endMarker ((frontA ++ content ++ str "\n\n") ++ (endMarker ++ str "\n")) =
      some (frontA ++ content ++ str "\n\n").length := by
  apply find_append_at
  · exact isPrefixOf_append_self _ _
  · intro i hi
    have hnn : (str "\n\n").length = 2 := rfl
    have hlenA : (frontA ++ content ++ str "\n\n").length =
        frontA.length + content.length + 2 := by
      simp only [List.length_append]
      omega
    by_cases h1 : i < frontA.length
    · have hle : i ≤ frontInit.length := by
        have h2 : frontA.length = frontInit.length + 1 := by
          rw [front_newline]; simp
        omega
      rw [List.append_assoc frontA content (str "\n\n"),
        List.drop_append_of_le_length (Nat.le_of_lt h1),
        front_newline, List.drop_append_of_le_length hle, List.append_assoc,
        List.append_assoc]
      cases hP : endMarker.isPrefixOf (frontInit.drop i ++
          (['\n'] ++ ((content ++ str "\n\n") ++ (endMarker ++ str "\n")))) with
      | false => rfl
      | true =>
        exfalso
        have hconf := prefix_confined endMarker (frontInit.drop i)
          ((content ++ str "\n\n") ++ (endMarker ++ str "\n")) '\n'
          newline_not_mem_end hP
        simp [end_not_in_frontInit i hle] at hconf
    · obtain ⟨j, hj⟩ : ∃ j, i = frontA.length + j := ⟨i - frontA.length, by omega⟩
      subst hj
      rw [List.append_assoc frontA content (str "\n\n"), List.drop_append]
      have hj2 : j < content.length + 2 := by omega
      by_cases h3 : j < content.length
      · rw [List.drop_append_of_le_length (Nat.le_of_lt h3)]
        have e1 : str "\n\n" ++ (endMarker ++ str "\n") =
            '\n' :: ('\n' :: (endMarker ++ str "\n")) := rfl
        rw [List.append_assoc, e1]
        cases hP : endMarker.isPrefixOf (content.drop j ++
            ('\n' :: ('\n' :: (endMarker ++ str "\n")))) with
        | false => rfl
        | true =>
          exfalso
          have hconf := prefix_confined endMarker (content.drop j)
            ('\n' :: (endMarker ++ str "\n")) '\n' newline_not_mem_end hP
          simp [find_none_not_at endMarker content hE j] at hconf
      · have hcases : j = content.length ∨ j = content.length + 1 := by omega
        rcases hcases with hj3 | hj3 <;> subst hj3
        · rw [List.drop_left]
          decide
        · rw [List.drop_append 1]
          decide

/-- C10: for content containing neither envelope marker, extracting the
document content from the text assembled by `create_latex_document`
(default class and packages) returns exactly the original content with
leading and trailing whitespace stripped. -/
theorem c10_round_trip (content : List Char)
    (hB : find beginMarker content = none) (hE : find endMarker content = none) :
    extract_document_content
        (create_latex_document_text content (str "article") defaultPackages) =
      pyStrip content := by
  have hnn : (str "\n\n").length = 2 := rfl
  have hnl : (str "\n").length = 1 := rfl
  have hdocB : create_latex_document_text content (str "article") defaultPackages =
      defaultPreamble ++ (beginMarker ++
        (str "\n\n" ++ (content ++ (str "\n\n" ++ (endMarker ++ str "\n"))))) := by
    simp [create_latex_document_text, defaultPreamble, List.append_assoc]
  have hdocE : create_latex_document_text content (str "article") defaultPackages =
      (frontA ++ content ++ str "\n\n") ++ (endMarker ++ str "\n") := by
    simp [create_latex_document_text, defaultPreamble, frontA, List.append_assoc]
  have hfB : find beginMarker
      (create_latex_document_text content (str "article") defaultPackages) =
      some defaultPreamble.length := by
    rw [hdocB]; exact find_begin_doc _
  have hfE : find endMarker
      (create_latex_document_text content (str "article") defaultPackages) =
      some (frontA ++ content ++ str "\n\n").length := by
    rw [hdocE]; exact find_end_doc content hE
  rw [extract_document_content_found _ _ _ hfB hfE]
  have hdocD : create_latex_document_text content (str "article") defaultPackages =
      (defaultPreamble ++ beginMarker) ++
        (str "\n\n" ++ (content ++ (str "\n\n" ++ (endMarker ++ str "\n")))) := by
    simp [create_latex_document_text, defaultPreamble, List.append_assoc]
  have hdrop : (create_latex_document_text content (str "article")
        defaultPackages).drop (defaultPreamble.length + beginMarker.length) =
      str "\n\n" ++ (content ++ (str "\n\n" ++ (endMarker ++ str "\n"))) := by
    rw [hdocD, ← List.length_append]
    exact List.drop_left _ _
  rw [hdrop]
  have harith : (frontA ++ content ++ str "\n\n").length -
      (defaultPreamble.length + beginMarker.length) =
      (str "\n\n").length + (content.length + 2) := by
    have hfa : frontA.length =
        defaultPreamble.length + beginMarker.length + 2 := by
      simp only [frontA, List.length_append]
      omega
    simp only [List.length_append]
    omega
  rw [harith, List.take_append]
  have htail : (content ++ (str "\n\n" ++ (endMarker ++ str "\n"))).take
      (content.length + 2) = content ++ str "\n\n" := by
    rw [List.take_append]
    have h2 : (str "\n\n" ++ (endMarker ++ str "\n")).take 2 = str "\n\n" := rfl
    rw [h2]
  rw [htail]
  show pyStrip ('\n' :: ('\n' :: (content ++ str "\n\n"))) = pyStrip content
  exact pyStrip_wrap content

/-- Witness for C10 at concrete content. -/
theorem c10_round_trip_witness :
    extract_document_content
        (create_latex_document_text (str "Hello") (str "article") defaultPackages) =
      str "Hello" :=
  (c10_round_trip (str "Hello") (by decide) (by decide)).trans (by decide)

/-- C7: `merge_pdfs` filters the inputs to those existing with a `.pdf`
suffix, fails with the "no valid files" error exactly when that filtered
set is empty, and on the degraded (reportlab, writable) backend succeeds
with a warning and `files_merged` equal to the filtered count. -/
theorem c7_merge_filter (env : MergeEnv) (inputs : List (List Char))
    (outputPath : List Char) (hb : env.backend = Backend.reportlab)
    (hw : env.writeOk = true) :
    ((merge_pdfs env inputs outputPath).error = some (str "No valid PDF files to merge") ↔
      inputs.filter (validPdfInput env) = []) ∧
    (inputs.filter (validPdfInput env) = [] →
      (merge_pdfs env inputs outputPath).success = false) ∧
    (inputs.filter (validPdfInput env) ≠ [] →
      (merge_pdfs env inputs outputPath).success = true ∧
      (merge_pdfs env inputs outputPath).warning =
        some (str "Only cover page created. Install PyPDF2 for full merging.") ∧
      (merge_pdfs env inputs outputPath).files_merged =
        some (inputs.filter (validPdfInput env)).length) := by
  unfold merge_pdfs
  rw [hb]
  by_cases hv : inputs.filter (validPdfInput env) = []
  · simp [hv, str]
  · simp only [hv, reduceCtorEq, if_false, if_neg hv]
    unfold mergeWithReportlab
    rw [hw]
    simp [hv, str]

/-- Witness for C7 (spec property 6): `[a.pdf, missing.pdf, b.pdf]` with
the degraded backend succeeds with a warning and `files_merged = 2`. -/
theorem c7_merge_filter_witness :
    (merge_pdfs c7Env c7Inputs (str "out.pdf")).success = true ∧
    (merge_pdfs c7Env c7Inputs (str "out.pdf")).warning =
      some (str "Only cover page created. Install PyPDF2 for full merging.") ∧
    (merge_pdfs c7Env c7Inputs (str "out.pdf")).files_merged = some 2 := by
  have h := (c7_merge_filter c7Env c7Inputs (str "out.pdf") rfl rfl).2.2 (by decide)
  exact ⟨h.1, h.2.1, by rw [h.2.2]; decide⟩

/-- C9 counterexample: with an explicit bookmark list shorter than the
file list, the second file is appended with NO bookmark (`None`), not its
base name as the claim states. -/
theorem c9_bookmark_counterexample :
    pypdf2Appends c9Files c9Bookmarks =
      [(str "a.pdf", some (str "x")), (str "b.pdf", (none : Option (List Char)))] ∧
    pypdf2Appends c9Files c9Bookmarks ≠
      [(str "a.pdf", some (str "x")), (str "b.pdf", some (str "b"))] := by decide

/-- The code's bookmark choice agrees with the amended label rule. -/
theorem bookmarkFor_eq_labelSpec (bms : List (List Char)) (i : Nat) (f : List Char) :
    bookmarkFor bms i f = labelSpec bms i f := by
  unfold bookmarkFor labelSpec
  rcases bms with _ | ⟨b, bs⟩
  · simp
  · by_cases hi : i < (b :: bs).length <;> simp [hi]

/-- C9 (amended): `_merge_with_pypdf2` appends every input in order; the
`i`-th input's bookmark is the explicit label at index `i` when the
bookmark list is non-empty and long enough, the input's base name when no
bookmark list is given, and absent when a non-empty list is too short. -/
theorem c9_pypdf2_append_labels (files bms : List (List Char)) :
    (pypdf2Appends files bms).map Prod.fst = files ∧
    (∀ i f, i < files.length → files.get? i = some f →
      (pypdf2Appends files bms).get? i = some (f, labelSpec bms i f)) := by
  constructor
  · simp only [pypdf2Appends, List.map_map]
    exact List.enum_map_snd files
  · intro i f hi hf
    simp [pypdf2Appends, List.get?_map, List.get?_enum, hf, bookmarkFor_eq_labelSpec]
    exact ⟨f, by rw [← List.get?_eq_getElem?]; exact hf, rfl, rfl⟩

/-- Witness for C9's amended theorem at the counterexample input. -/
theorem c9_pypdf2_append_labels_witness :
    (pypdf2Appends c9Files c9Bookmarks).map Prod.fst = c9Files ∧
    (pypdf2Appends c9Files c9Bookmarks).get? 1 =
      some (str "b.pdf", labelSpec c9Bookmarks 1 (str "b.pdf")) :=
  ⟨(c9_pypdf2_append_labels c9Files c9Bookmarks).1,
   (c9_pypdf2_append_labels c9Files c9Bookmarks).2 1 (str "b.pdf") (by decide) (by decide)⟩

/-- C3 counterexample: a directory containing only `notes.tex` resolves
to none of the validator's candidates, yet `combine_modules` does not
skip it — it uses `notes.tex`. -/
theorem c3_resolution_counterexample :
    validatorPrimaryName (str "m1") [str "notes.tex"] = none ∧
      processModule c3Dir = some (sectionTitle (pathStem (str "m1")), str "body") := by
  decide

/-- The code's directory-case choice agrees with the amended resolution
rule. -/
theorem resolveTexFile_eq_spec (l : List (List Char)) :
    resolveTexFile l = combineResolvedTex l := by
  rcases l with _ | ⟨t, ts⟩
  · simp [resolveTexFile, combineResolvedTex]
  · rcases hf : (t :: ts).filter isMainName with _ | ⟨f, fs⟩ <;>
      simp [resolveTexFile, combineResolvedTex, hf]

/-- C3 (amended): `combine_modules` resolves a directory's source file to
the first listed file named `main.tex`/`module.tex`, else the first
listed `.tex` file; a directory is skipped only when it has no `.tex`
file at all (or the chosen file cannot be read).  A direct file path is
used as-is and skipped when missing or unreadable. -/
theorem c3_combine_resolution (name : List Char) (texListing : List (List Char))
    (readFile : List Char → Option (List Char)) (fileExists : Bool)
    (content : Option (List Char)) :
    (combineResolvedTex texListing = none ↔ texListing = []) ∧
    processModule (.dir name texListing readFile) =
      (combineResolvedTex texListing).bind
        (fun f => (readFile f).map
          (fun c => (sectionTitle (pathStem name), extract_document_content c))) ∧
    processModule (.file name fileExists content) =
      (if fileExists then content else none).map
        (fun c => (sectionTitle (pathStem name), extract_document_content c)) := by
  refine ⟨?_, ?_, ?_⟩
  · rcases texListing with _ | ⟨t, ts⟩
    · simp [combineResolvedTex]
    · rcases hf : (t :: ts).filter isMainName with _ | ⟨f, fs⟩ <;>
        simp [combineResolvedTex, hf]
  · simp only [processModule]
    rw [resolveTexFile_eq_spec]
    rcases hf : combineResolvedTex texListing with _ | f
    · simp
    · rcases hr : readFile f with _ | c <;> simp [hr]
  · rcases fileExists with _ | _ <;> rcases content with _ | c <;> simp [processModule]

/-- Every surviving block's heading is the title-cased,
underscore-replaced stem of the input's final path component. -/
theorem processModule_heading (m : CombineInput) (b : List Char × List Char)
    (h : processModule m = some b) :
    b.1 = sectionTitle (pathStem (inputName m)) := by
  cases m with
  | dir name listing read =>
    simp only [processModule] at h
    rcases hf : resolveTexFile listing with _ | f
    · simp [hf] at h
    · rcases hr : read f with _ | c
      · simp [hf, hr] at h
      · simp [hf, hr] at h
        rw [← h]
        simp [inputName]
  | file name ex content =>
    simp only [processModule] at h
    rcases ex with _ | _
    · simp at h
    · rcases content with _ | c
      · simp at h
      · simp at h
        rw [← h]
        simp [inputName]

/-- The accumulation loop concatenates the rendered blocks after the
accumulator. -/
theorem combineContentLoop_eq (inputs : List CombineInput) :
    ∀ acc, combineContentLoop inputs acc =
      acc ++ ((combineBlocks inputs).map renderBlock).flatten := by
  induction inputs with
  | nil => intro acc; simp [combineContentLoop, combineBlocks]
  | cons m ms ih =>
    intro acc
    unfold combineContentLoop combineBlocks
    rcases hp : processModule m with _ | b
    · simp [hp, List.filterMap_cons, ih acc, combineBlocks]
    · simp [hp, List.filterMap_cons, ih (acc ++ renderBlock b), combineBlocks,
        List.append_assoc]

/-- Blocks of a reversed input list are the reversed blocks. -/
theorem combineBlocks_reverse (inputs : List CombineInput) :
    combineBlocks inputs.reverse = (combineBlocks inputs).reverse := by
  induction inputs with
  | nil => simp [combineBlocks]
  | cons m ms ih =>
    simp only [combineBlocks, List.reverse_cons, List.filterMap_append,
      List.filterMap_cons]
    rcases hp : processModule m with _ | b <;>
      simp [combineBlocks] at ih <;> simp [ih]

/-- C8 counterexample: a module folder named `intro.v1` yields the
heading "Intro" (from `Path.stem`), not the title-cased folder name
"Intro.V1" the claim derives. -/
theorem c8_heading_counterexample :
    combineHeadings [c8DottedDir] = [str "Intro"] ∧
      combineHeadings [c8DottedDir] ≠
        [pyTitle (replaceUnderscores (str "intro.v1"))] := by decide

/-- C8 (amended): when every module resolves, the section headings of the
combined document are exactly the title-cased, underscore-replaced stems
of the input paths, in input order (independent of directory listing
order); reversing the input list reverses the headings, and the combined
body is the concatenation of the per-module blocks in that order. -/
theorem c8_section_order (inputs : List CombineInput)
    (h : ∀ m ∈ inputs, (processModule m).isSome = true) :
    combineHeadings inputs =
      inputs.map (fun m => sectionTitle (pathStem (inputName m))) ∧
    combineHeadings inputs.reverse = (combineHeadings inputs).reverse ∧
    combine_modules_content inputs = ((combineBlocks inputs).map renderBlock).flatten := by
  refine ⟨?_, ?_, ?_⟩
  · induction inputs with
    | nil => simp [combineHeadings, combineBlocks]
    | cons m ms ih =>
      have hm : (processModule m).isSome = true := h m (List.mem_cons_self m ms)
      rcases hb : processModule m with _ | b
      · rw [hb] at hm; exact absurd hm (by simp)
      · have ih2 := ih (fun x hx => h x (List.mem_cons_of_mem m hx))
        simp only [combineHeadings, combineBlocks, List.filterMap_cons, hb,
          List.map_cons, List.map_map] at ih2 ⊢
        rw [processModule_heading m b hb]
        simp [ih2]
  · simp [combineHeadings, combineBlocks_reverse]
  · simpa using combineContentLoop_eq inputs []

/-- Witness for C8's amended theorem: two modules in both orders. -/
theorem c8_section_order_witness :
    combineHeadings [c8A, c8B] = [str "Mod One", str "Mod Two"] ∧
      combineHeadings [c8B, c8A] = [str "Mod Two", str "Mod One"] := by
  have h1 := c8_section_order [c8A, c8B] (by decide)
  have h2 := c8_section_order [c8B, c8A] (by decide)
  constructor
  · rw [h1.1]; decide
  · rw [h2.1]; decide

end GWF
